import Mathlib

/-!
Shallow embedding of `database.py` (class `ImageProcessingDB`): the record
model (`Image`, `User`), the validator `_image_parameter_check` with its
per-field stages, and the store operations `add_image`, `_add_child`,
`update_user_uploads`, `add_user`, `update_description`, `find_image`,
`find_image_parent`, `find_image_child`, `find_user`.

The MongoDB store is modelled as in-memory lists of records.  `save()` on a
pymodm model object is an upsert by primary key: replace the first stored
record carrying the same id, otherwise append.  Each `find_*` call runs a
fresh query (`Image.objects.all()` / `User.objects.all()`), materialising new
objects, so two lookups never alias; the embedding therefore works with
immutable record values.  Python exceptions raised by the methods are
modelled with `Except PyErr`.
-/

/-- Python runtime values that may occupy an entry of the `image_info` dict
passed to `add_image`. -/
inductive PyVal where
  | str (s : String)
  | int (n : Int)
  | bytes (b : String)
  | pynone
deriving DecidableEq

/-- Python exceptions raised in `database.py`, tagged with their messages.
`noneAttribute` stands for the `AttributeError` produced by an attribute
access on `None` (e.g. `None.process_history`); `indexError` for indexing an
empty list (`lst[0]` / `lst[-1]`). -/
inductive PyErr where
  | typeError (msg : String)
  | attributeError (msg : String)
  | valueError (msg : String)
  | indexError
  | noneAttribute
deriving DecidableEq

/-- The `Image` MongoModel (database.py lines 10-22).  The stored fields used
by the core logic; `timestamp` is an opaque clock value, the binary `image`
payload is not replayed by any of the verified operations and is omitted
from the stored record (no operation after validation reads it). -/
structure Image where
  image_id : String
  user_id : String
  timestamp : Nat
  width : Int
  height : Int
  format : String
  description : String
  child_ids : List String
  process_history : List String
  processing_time : Int
  process : String
deriving DecidableEq

/-- The `User` MongoModel (lines 25-28): `uploads` is a dict from lineage
root image id to most-recent image id, modelled as an insertion-ordered
association list. -/
structure User where
  user_id : String
  uploads : List (String × String)
deriving DecidableEq

/-- The whole store: the two collections. -/
structure DBState where
  images : List Image
  users : List User
deriving DecidableEq

/-- The `image_info` dict argument of `add_image`: each key of the fixed key
set used by the source is either absent (`Option.none`) or holds an
arbitrary Python value. -/
structure ImageInfo where
  image_id : Option PyVal
  image : Option PyVal
  height : Option PyVal
  width : Option PyVal
  format : Option PyVal
  processing_time : Option PyVal
  process : Option PyVal
  parent_id : Option PyVal
  description : Option PyVal
deriving DecidableEq

/-- A request as the post-validation body of `add_image` (lines 55-88) reads
it: the typed field values the checks are meant to establish.  `parent_id`
is the optional key of line 58, `description` the optional key of line 72. -/
structure AddRequest where
  image_id : String
  width : Int
  height : Int
  format : String
  processing_time : Int
  process : String
  parent_id : Option String
  description : Option String
deriving DecidableEq

/-- The base64 alphabet used by `base64.b64encode`. -/
def b64_alphabet : List Char :=
  "ABCDEFGHIJKLMNOPQRSTUVWXYZabcdefghijklmnopqrstuvwxyz0123456789+/".toList

/-- Final characters admissible before one `=` pad (their low two bits are
zero, so decode-then-encode reproduces them). -/
def b64_pad1_final : List Char := "AEIMQUYcgkosw048".toList

/-- Final characters admissible before two `=` pads (low four bits zero). -/
def b64_pad2_final : List Char := "AQgw".toList

/-- The set of byte strings `x` with `base64.b64encode(base64.b64decode(x)) == x`
(line 228): canonical base64 — length a multiple of four, at most two
trailing pads, every body character from the alphabet, and zeroed trailing
bits in the final quantum.  Any stray character is dropped by the lenient
decoder and so breaks the round trip. -/
def canonical_base64 (b : String) : Bool :=
  let cs := b.toList
  if cs.length % 4 != 0 then false
  else
    let rcs := cs.reverse
    let pads := (rcs.takeWhile (fun c => c = '=')).length
    let body := (rcs.dropWhile (fun c => c = '=')).reverse
    if pads > 2 then false
    else if !(body.all (fun c => b64_alphabet.contains c)) then false
    else if pads = 0 then true
    else if pads = 1 then
      match body.getLast? with
      | some c => b64_pad1_final.contains c
      | Option.none => false
    else
      match body.getLast? with
      | some c => b64_pad2_final.contains c
      | Option.none => false

/-- `_is_base64` (lines 217-230).  For a `str` argument the comparison
`b64encode(b64decode(x)) == x` compares `bytes` with `str`, which is always
`False` in Python 3; for non-decodable values the raised error is caught and
`False` returned; only a `bytes` value can round-trip. -/
def _is_base64 (v : PyVal) : Bool :=
  match v with
  | PyVal.bytes b => canonical_base64 b
  | _ => false

/-- `isinstance(v, str)`. -/
def py_is_str (v : PyVal) : Bool :=
  match v with
  | PyVal.str _ => true
  | _ => false

/-- `isinstance(v, int)`. -/
def py_is_int (v : PyVal) : Bool :=
  match v with
  | PyVal.int _ => true
  | _ => false

/-- The format enumeration of line 140. -/
def format_enum : List String := ["jpg", "jpeg", "png", "tiff", "gif"]

/-- Line 138: `image_info["format"] != str`.  The right-hand side is the
class `str` itself, not a string; a runtime data value is never equal to the
class object, so the comparison is true for every value the dict can hold. -/
def ne_class_str (_ : PyVal) : Bool := true

/-- Lines 140-141: `image_info["format"].lower() in [...]`; calling
`.lower()` on a non-string raises `AttributeError`. -/
def py_lower_in_formats (v : PyVal) : Except PyErr Bool :=
  match v with
  | PyVal.str s => Except.ok (format_enum.contains s.toLower)
  | _ => Except.error (PyErr.attributeError "lower")

/-- CPython's `dir(object)` (the class `object`'s attribute listing), as
iterated by `valid_process` at line 157. -/
def dir_object : List String :=
  ["__class__", "__delattr__", "__dir__", "__doc__", "__eq__", "__format__",
   "__ge__", "__getattribute__", "__gt__", "__hash__", "__init__",
   "__init_subclass__", "__le__", "__lt__", "__ne__", "__new__",
   "__reduce__", "__reduce_ex__", "__repr__", "__setattr__", "__sizeof__",
   "__str__", "__subclasshook__"]

/-- Modelled from the spec: `processing.py` (the `Processing` class of the
external Processor collaborator) is not part of the provided source tree.
`valid_process` only ever evaluates `callable(getattr(Processing, name))`
for names drawn from `dir(object)`; every such name is inherited by any
Python class and resolves to a callable (method, slot wrapper, classmethod,
or — for `__class__` — the metaclass) except `__doc__`, which is the class
docstring, a `str` or `None`, hence not callable. -/
def callable_on_Processing (name : String) : Bool := name != "__doc__"

/-- Line 157-158: `[m for m in dir(object) if callable(getattr(Processing, m))]`.
Note the comprehension iterates `dir(object)`, not `dir(Processing)`. -/
def valid_processes : List String := dir_object.filter callable_on_Processing

/-- `valid_process` (lines 156-162): membership in `valid_processes`. -/
def valid_process (process : String) : Bool := valid_processes.contains process

/-- Lines 120-123: presence and `str`-ness of `image_id`. -/
def check_image_id_stage (v : Option PyVal) : Except PyErr Unit :=
  match v with
  | Option.none => Except.error (PyErr.attributeError "image_info must have image_id.")
  | some x =>
      if py_is_str x then Except.ok ()
      else Except.error (PyErr.attributeError "image_id must be type str.")

/-- Lines 124-127: presence of `image` and the base64 round-trip test. -/
def check_image_stage (v : Option PyVal) : Except PyErr Unit :=
  match v with
  | Option.none => Except.error (PyErr.attributeError "image_info must have image data.")
  | some x =>
      if _is_base64 x then Except.ok ()
      else Except.error (PyErr.typeError "image must be type base64.")

/-- Lines 128-135: presence of `height` and `width`, then their `int`-ness
(the width message repeats "height", as in the source line 135). -/
def check_dims_stage (h w : Option PyVal) : Except PyErr Unit :=
  match h with
  | Option.none => Except.error (PyErr.attributeError "image_info must have height.")
  | some hv =>
      match w with
      | Option.none => Except.error (PyErr.attributeError "image_info must have width.")
      | some wv =>
          if !(py_is_int hv) then Except.error (PyErr.typeError "height must be type int.")
          else if !(py_is_int wv) then Except.error (PyErr.typeError "height must be type int.")
          else Except.ok ()

/-- Lines 136-142: presence of `format`, the comparison with the class `str`
(line 138, always true for a data value — see `ne_class_str`), and the
enum membership test of lines 140-141, which is unreachable for data
values. -/
def check_format_stage (v : Option PyVal) : Except PyErr Unit :=
  match v with
  | Option.none => Except.error (PyErr.attributeError "image_info must have format.")
  | some f =>
      if ne_class_str f then Except.error (PyErr.typeError "format must be type str")
      else
        match py_lower_in_formats f with
        | Except.error e => Except.error e
        | Except.ok true => Except.ok ()
        | Except.ok false => Except.error (PyErr.valueError "format invalid.")

/-- Lines 143-147: presence of `processing_time` and its `int`-ness.  The
source contains no sign test. -/
def check_processing_time_stage (v : Option PyVal) : Except PyErr Unit :=
  match v with
  | Option.none => Except.error (PyErr.attributeError "image_info must have processing_time.")
  | some t =>
      if py_is_int t then Except.ok ()
      else Except.error (PyErr.typeError "processing_time must be type int in milliseconds.")

/-- Lines 148-153: presence and `str`-ness of `process`, then `valid_process`. -/
def check_process_stage (v : Option PyVal) : Except PyErr Unit :=
  match v with
  | Option.none => Except.error (PyErr.attributeError "image_info must have process.")
  | some p =>
      match p with
      | PyVal.str s =>
          if valid_process s then Except.ok ()
          else Except.error (PyErr.valueError "process invalid.")
      | _ => Except.error (PyErr.typeError "process must be type str.")

/-- Sequencing of the checks: the first raised exception propagates. -/
def seqCheck (c : Except PyErr Unit) (rest : Except PyErr ImageInfo) :
    Except PyErr ImageInfo :=
  match c with
  | Except.error e => Except.error e
  | Except.ok _ => rest

/-- `_image_parameter_check` (lines 107-154): the fixed ordered sequence of
field checks; on success the dict itself is returned (line 154).  The
line-118 dict-ness guard is satisfied by construction here, since the
embedding types the argument as a dict. -/
def _image_parameter_check (info : ImageInfo) : Except PyErr ImageInfo :=
  seqCheck (check_image_id_stage info.image_id)
    (seqCheck (check_image_stage info.image)
      (seqCheck (check_dims_stage info.height info.width)
        (seqCheck (check_format_stage info.format)
          (seqCheck (check_processing_time_stage info.processing_time)
            (seqCheck (check_process_stage info.process)
              (Except.ok info))))))

/-- `find_image` (lines 246-258): scan `Image.objects.all()` in order and
return the first record whose id matches, else `None`. -/
def find_image (db : List Image) (image_id : String) : Option Image :=
  match db with
  | [] => Option.none
  | img :: rest => if img.image_id = image_id then some img else find_image rest image_id

/-- `find_image_child` (lines 274-286): its body is the same scan as
`find_image`, written out separately as in the source. -/
def find_image_child (db : List Image) (image_id : String) : Option Image :=
  match db with
  | [] => Option.none
  | img :: rest => if img.image_id = image_id then some img else find_image_child rest image_id

/-- `model.save()` for an `Image`: upsert by the `image_id` primary key. -/
def save_image (db : List Image) (img : Image) : List Image :=
  match db with
  | [] => [img]
  | i0 :: rest =>
      if i0.image_id = img.image_id then img :: rest
      else i0 :: save_image rest img

/-- `find_user` (lines 288-301): the analogous scan over users. -/
def find_user (users : List User) (user_id : String) : Option User :=
  match users with
  | [] => Option.none
  | u :: rest => if u.user_id = user_id then some u else find_user rest user_id

/-- `model.save()` for a `User`: upsert by the `user_id` primary key. -/
def save_user (users : List User) (u : User) : List User :=
  match users with
  | [] => [u]
  | u0 :: rest =>
      if u0.user_id = u.user_id then u :: rest
      else u0 :: save_user rest u

/-- Python dict assignment `d[k] = v`: overwrite in place if the key is
present, else append the new entry. -/
def dict_insert (d : List (String × String)) (k v : String) : List (String × String) :=
  match d with
  | [] => [(k, v)]
  | (k0, v0) :: rest =>
      if k0 = k then (k, v) :: rest
      else (k0, v0) :: dict_insert rest k v

/-- `add_user` (lines 164-180): raise `ValueError` on an existing id,
otherwise save a fresh user with an empty uploads dict and return it. -/
def add_user (users : List User) (user_id : String) : Except PyErr (List User × User) :=
  match find_user users user_id with
  | some _ => Except.error (PyErr.valueError "User already exists!")
  | Option.none =>
      Except.ok (save_user users { user_id := user_id, uploads := [] },
                 { user_id := user_id, uploads := [] })

/-- `update_user_uploads` (lines 182-195).  `process_history[0]` on an empty
list raises `IndexError` before anything else happens; otherwise the first
and last elements key the upsert `user.uploads[root_id] = recent_id`, with
the user auto-provisioned through `add_user` when missing. -/
def update_user_uploads (db : DBState) (user_id : String)
    (process_history : List String) : Except PyErr DBState :=
  match process_history with
  | [] => Except.error PyErr.indexError
  | root :: rest =>
      let recent := (root :: rest).getLastD root
      match find_user db.users user_id with
      | some u =>
          Except.ok { db with
            users := save_user db.users { u with uploads := dict_insert u.uploads root recent } }
      | Option.none =>
          match add_user db.users user_id with
          | Except.error e => Except.error e
          | Except.ok (users1, u) =>
              Except.ok { db with
                users := save_user users1 { u with uploads := dict_insert u.uploads root recent } }

/-- `_add_child` (lines 90-105): re-fetch the parent by id; when found,
append the child id to its `child_ids` and save the fetched copy, returning
the child id; when absent, leave the store alone and return `None`. -/
def _add_child (db : List Image) (child_id parent_id : String) :
    List Image × Option String :=
  match find_image db parent_id with
  | some parent_image =>
      (save_image db { parent_image with child_ids := parent_image.child_ids ++ [child_id] },
       some child_id)
  | Option.none => (db, Option.none)

/-- The `Image(...)` constructor call of lines 77-87: `child_ids` is not
passed and defaults to the empty list; a missing description defaults to the
literal string "None" (lines 72-75). -/
def new_image (req : AddRequest) (user_id : String) (now : Nat)
    (process_history : List String) : Image :=
  { image_id := req.image_id, user_id := user_id, timestamp := now,
    width := req.width, height := req.height, format := req.format,
    description := req.description.getD "None",
    child_ids := [], process_history := process_history,
    processing_time := req.processing_time, process := req.process }

/-- The body of `add_image` after the validation call (lines 55-88).  With a
`parent_id`: look the parent up (an absent parent makes line 61 dereference
`None`, an `AttributeError`); build the child's history by appending the
parent id to the fetched copy's history (the copy is never saved, so the
append stays in memory); run `_add_child`; update the user ledger; save the
new record.  Without a `parent_id`: the history is empty, and
`update_user_uploads` is called on the empty list.  An error result carries
the store as already mutated at the point the exception escapes (the source
has no rollback). -/
def add_image_validated (db : DBState) (user_id : String) (req : AddRequest)
    (now : Nat) : Except (PyErr × DBState) DBState :=
  match req.parent_id with
  | some pid =>
      match find_image db.images pid with
      | Option.none => Except.error (PyErr.noneAttribute, db)
      | some parent_image =>
          let process_history := parent_image.process_history ++ [pid]
          let db1 : DBState := { db with images := (_add_child db.images req.image_id pid).1 }
          match update_user_uploads db1 user_id process_history with
          | Except.error e => Except.error (e, db1)
          | Except.ok db2 =>
              Except.ok { db2 with
                images := save_image db2.images (new_image req user_id now process_history) }
  | Option.none =>
      match update_user_uploads db user_id [] with
      | Except.error e => Except.error (e, db)
      | Except.ok db2 =>
          Except.ok { db2 with
            images := save_image db2.images (new_image req user_id now []) }

/-- Reading of the dict by the post-validation body: the fields as the typed
values that lines 55-88 consume.  Returns `Option.none` when a value does not
have the shape the preceding checks were meant to establish (unreachable
after a successful `_image_parameter_check`). -/
def toAddRequest (info : ImageInfo) : Option AddRequest :=
  match info.image_id, info.height, info.width, info.format,
      info.processing_time, info.process with
  | some (PyVal.str iid), some (PyVal.int h), some (PyVal.int w),
      some (PyVal.str fm), some (PyVal.int pt), some (PyVal.str pr) =>
      let par : Option String :=
        match info.parent_id with
        | some (PyVal.str p) => some p
        | _ => Option.none
      let desc : Option String :=
        match info.description with
        | some (PyVal.str d) => some d
        | _ => Option.none
      some { image_id := iid, width := w, height := h, format := fm,
             processing_time := pt, process := pr, parent_id := par,
             description := desc }
  | _, _, _, _, _, _ => Option.none

/-- `add_image` (lines 43-88): run `_image_parameter_check` first — an
exception escapes with the store untouched — then the body.  The fallback
branch is unreachable: the checks only succeed on dicts whose fields have
the extracted shapes. -/
def add_image (db : DBState) (user_id : String) (info : ImageInfo)
    (now : Nat) : Except (PyErr × DBState) DBState :=
  match _image_parameter_check info with
  | Except.error e => Except.error (e, db)
  | Except.ok info2 =>
      match toAddRequest info2 with
      | some req => add_image_validated db user_id req now
      | Option.none => Except.error (PyErr.typeError "unreachable", db)

/-- `find_image_parent` (lines 260-272): fetch the image (a miss makes
line 270 dereference `None`), take `process_history[-1]` (an `IndexError`
on an empty history), and return the lookup of that parent id. -/
def find_image_parent (db : List Image) (image_id : String) :
    Except PyErr (Option Image) :=
  match find_image db image_id with
  | Option.none => Except.error PyErr.noneAttribute
  | some image =>
      match image.process_history.getLast? with
      | Option.none => Except.error PyErr.indexError
      | some parent_id => Except.ok (find_image db parent_id)

/-- Line 212: `image.heart_rates = description`.  `heart_rates` is not a
declared field of the `Image` model (lines 10-22), so the assignment creates
an untracked instance attribute and the subsequent `save()` persists the
record's declared fields unchanged — in particular `description` keeps its
stored value. -/
def heart_rates_assign (img : Image) (_ : String) : Image := img

/-- `update_description` (lines 197-215): scan every image, and for each id
match perform the line-212 assignment and save, recording that a match was
found; return the flag. -/
def update_description (db : List Image) (image_id : String)
    (description : String) : List Image × Bool :=
  match db with
  | [] => ([], false)
  | img :: rest =>
      let r := update_description rest image_id description
      if img.image_id = image_id then
        (heart_rates_assign img description :: r.1, true)
      else (img :: r.1, r.2)

/-- A stored lineage-root image used as a concrete test fixture. -/
def P0 : Image :=
  { image_id := "p1", user_id := "u1", timestamp := 0, width := 640,
    height := 480, format := "png", description := "root image",
    child_ids := [], process_history := [], processing_time := 12,
    process := "blur" }

/-- A store holding just `P0`. -/
def db0 : DBState := { images := [P0], users := [] }

/-- A validated request deriving a child `c1` from parent `p1`. -/
def req0 : AddRequest :=
  { image_id := "c1", width := 640, height := 480, format := "png",
    processing_time := 3, process := "blur", parent_id := some "p1",
    description := Option.none }

/-- A validated request with no `parent_id` (a lineage root). -/
def reqRoot : AddRequest :=
  { image_id := "r1", width := 640, height := 480, format := "png",
    processing_time := 3, process := "blur", parent_id := Option.none,
    description := Option.none }

/-- An `image_info` dict whose fields are all well-shaped except that the
format value is the invalid enum member "bmp"; the image payload is a
canonical base64 byte string, so the request reaches the format check. -/
def bmp_info : ImageInfo :=
  { image_id := some (PyVal.str "i1"), image := some (PyVal.bytes "aGVsbG8="),
    height := some (PyVal.int 10), width := some (PyVal.int 10),
    format := some (PyVal.str "bmp"), processing_time := some (PyVal.int 5),
    process := some (PyVal.str "blur"), parent_id := Option.none,
    description := Option.none }

/-- A successful `find_image` returns a record carrying the queried id. -/
theorem find_image_some_id (db : List Image) (j : String) (img : Image)
    (h : find_image db j = some img) : img.image_id = j := by
  induction db with
  | nil => simp [find_image] at h
  | cons a rest ih =>
      by_cases ha : a.image_id = j
      · simp [find_image, ha] at h
        rw [← h]
        exact ha
      · simp [find_image, ha] at h
        exact ih h

/-- After an upsert, looking the saved record's id up returns the record. -/
theorem find_save_self (db : List Image) (i : Image) :
    find_image (save_image db i) i.image_id = some i := by
  induction db with
  | nil => simp [save_image, find_image]
  | cons a rest ih =>
      by_cases h : a.image_id = i.image_id
      · simp [save_image, h, find_image]
      · simp [save_image, h, find_image, ih]

/-- An upsert leaves lookups of every other id unchanged. -/
theorem find_save_other (db : List Image) (i : Image) (j : String)
    (h : j ≠ i.image_id) :
    find_image (save_image db i) j = find_image db j := by
  induction db with
  | nil => simp [save_image, find_image, Ne.symm h]
  | cons a rest ih =>
      by_cases h1 : a.image_id = i.image_id
      · have ha : ¬ (a.image_id = j) := by
          rw [h1]
          exact Ne.symm h
        simp [save_image, h1, find_image, Ne.symm h, ha]
      · by_cases h2 : a.image_id = j
        · simp [save_image, h1, find_image, h2, h]
        · simp [save_image, h1, find_image, h2, ih]

/-- On a non-empty history, `update_user_uploads` succeeds and leaves the
image collection untouched. -/
theorem update_user_uploads_ok (db : DBState) (uid : String)
    (ph : List String) (h : ph ≠ []) :
    ∃ dbU, update_user_uploads db uid ph = Except.ok dbU ∧
      dbU.images = db.images := by
  cases ph with
  | nil => exact absurd rfl h
  | cons root rest =>
      unfold update_user_uploads
      cases hfu : find_user db.users uid with
      | none => simp [add_user, hfu]
      | some u => simp [hfu]

/-- The format stage raises on every input: a missing key raises
`AttributeError`, and for any present value the line-138 comparison with the
class `str` is true, raising `TypeError`. -/
theorem check_format_stage_always_fails (v : Option PyVal) :
    ∃ e, check_format_stage v = Except.error e := by
  cases v with
  | none => exact ⟨_, rfl⟩
  | some f => exact ⟨_, rfl⟩

/-- A check sequence whose tail always errors itself always errors. -/
theorem seqCheck_always_fails (c : Except PyErr Unit)
    (rest : Except PyErr ImageInfo) (h : ∃ e, rest = Except.error e) :
    ∃ e, seqCheck c rest = Except.error e := by
  cases c with
  | error e => exact ⟨e, rfl⟩
  | ok _ => exact h

/-- The whole `_image_parameter_check` raises on every input, because the
format stage raises on every input. -/
theorem parameter_check_always_fails (info : ImageInfo) :
    ∃ e, _image_parameter_check info = Except.error e := by
  unfold _image_parameter_check
  apply seqCheck_always_fails
  apply seqCheck_always_fails
  apply seqCheck_always_fails
  obtain ⟨e, he⟩ := check_format_stage_always_fails info.format
  exact ⟨e, by rw [he]; rfl⟩

/-- Shape of a parent-linked `add_image` body run: it succeeds, and the final
image collection is the original with (1) the parent record upserted with the
child id appended and (2) the fresh child record upserted. -/
theorem add_image_validated_parent_shape (db : DBState) (u pid : String)
    (req : AddRequest) (now : Nat) (P : Image)
    (hp : req.parent_id = some pid)
    (hfind : find_image db.images pid = some P) :
    ∃ users2, add_image_validated db u req now = Except.ok
      { images := save_image
          (save_image db.images { P with child_ids := P.child_ids ++ [req.image_id] })
          (new_image req u now (P.process_history ++ [pid])),
        users := users2 } := by
  have hne : P.process_history ++ [pid] ≠ [] := by simp
  obtain ⟨dbU, hU, hUim⟩ := update_user_uploads_ok
    { db with images := (_add_child db.images req.image_id pid).1 } u
    (P.process_history ++ [pid]) hne
  refine ⟨dbU.users, ?_⟩
  unfold add_image_validated
  rw [hp]
  simp only [hfind]
  rw [hU]
  have himg : dbU.images =
      save_image db.images { P with child_ids := P.child_ids ++ [req.image_id] } := by
    rw [hUim]
    simp [_add_child, hfind]
  simp [himg]

/-- C1: for a valid request whose `parent_id` names a stored image `P`, the
body of `add_image` stores the new image with process history
`P.process_history ++ [P.id]` and the persisted parent's child-id set
contains the new image's id.  The new id is required to differ from the
parent id, per the spec's global id-uniqueness invariant. -/
theorem add_image_parent_appends_history_and_child
    (db : DBState) (u pid : String) (req : AddRequest) (now : Nat) (P : Image)
    (hp : req.parent_id = some pid)
    (hfind : find_image db.images pid = some P)
    (hne : req.image_id ≠ pid) :
    ∃ db2 newImg, add_image_validated db u req now = Except.ok db2 ∧
      find_image db2.images req.image_id = some newImg ∧
      newImg.process_history = P.process_history ++ [pid] ∧
      ∃ P2, find_image db2.images pid = some P2 ∧ req.image_id ∈ P2.child_ids := by
  obtain ⟨users2, hrun⟩ := add_image_validated_parent_shape db u pid req now P hp hfind
  have hPid : P.image_id = pid := find_image_some_id _ _ _ hfind
  refine ⟨_, new_image req u now (P.process_history ++ [pid]), hrun, ?_, rfl,
    { P with child_ids := P.child_ids ++ [req.image_id] }, ?_, by simp⟩
  · exact find_save_self _ _
  · have h1 : find_image
        (save_image
          (save_image db.images { P with child_ids := P.child_ids ++ [req.image_id] })
          (new_image req u now (P.process_history ++ [pid]))) pid =
        find_image
          (save_image db.images { P with child_ids := P.child_ids ++ [req.image_id] })
          pid :=
      find_save_other _ _ _ (Ne.symm hne)
    rw [h1, ← hPid]
    exact find_save_self db.images
      { P with child_ids := P.child_ids ++ [req.image_id] }

/-- Witness for C1 on a concrete store: parent `p1` with empty history, new
child `c1`. -/
theorem add_image_parent_appends_history_and_child_witness :
    ∃ db2 newImg, add_image_validated db0 "u1" req0 7 = Except.ok db2 ∧
      find_image db2.images "c1" = some newImg ∧
      newImg.process_history = P0.process_history ++ ["p1"] ∧
      ∃ P2, find_image db2.images "p1" = some P2 ∧ "c1" ∈ P2.child_ids :=
  add_image_parent_appends_history_and_child db0 "u1" "p1" req0 7 P0 rfl rfl
    (by decide)

/-- C2: when a valid request carries no `parent_id`, the `add_image` body does
NOT store a root image — `update_user_uploads` evaluates `process_history[0]`
on the empty history and raises `IndexError`, so the operation aborts with
the store unchanged and the image is never saved; the user ledger never
gains an entry keyed by the new image's id. -/
theorem add_image_root_raises_indexerror (db : DBState) (u : String)
    (req : AddRequest) (now : Nat) (hp : req.parent_id = Option.none) :
    add_image_validated db u req now = Except.error (PyErr.indexError, db) ∧
    update_user_uploads db u [] = Except.error PyErr.indexError := by
  constructor
  · unfold add_image_validated
    rw [hp]
    rfl
  · rfl

/-- Witness for C2: a concrete rootless request against a concrete store. -/
theorem add_image_root_raises_indexerror_witness :
    add_image_validated db0 "u1" reqRoot 7 = Except.error (PyErr.indexError, db0) ∧
    update_user_uploads db0 "u1" [] = Except.error PyErr.indexError :=
  add_image_root_raises_indexerror db0 "u1" reqRoot 7 rfl

/-- C3: the format check rejects every value — in particular both "png" and
"PNG" — with the line-139 `TypeError`, because line 138 compares the value
against the class `str` with `!=`, which is true for every string. -/
theorem format_check_rejects_png_and_every_value :
    check_format_stage (some (PyVal.str "png")) =
      Except.error (PyErr.typeError "format must be type str") ∧
    check_format_stage (some (PyVal.str "PNG")) =
      Except.error (PyErr.typeError "format must be type str") ∧
    check_format_stage (some (PyVal.str "gif")) =
      Except.error (PyErr.typeError "format must be type str") :=
  ⟨rfl, rfl, rfl⟩

/-- C4: every request makes `add_image` raise during validation with the
store unchanged (no image, user or parent mutation is persisted) — but the
error kinds do not all correspond: a request carrying the invalid enum value
"bmp" (all other fields well-shaped) is rejected with the wrong-type
`TypeError` of line 139 instead of the `ValueError "format invalid."` of
line 142, since the line-138 class comparison fires first on every value. -/
theorem add_image_invalid_requests_fail_store_unchanged :
    (∀ (db : DBState) (u : String) (info : ImageInfo) (now : Nat),
        ∃ e, add_image db u info now = Except.error (e, db)) ∧
    _image_parameter_check bmp_info =
      Except.error (PyErr.typeError "format must be type str") := by
  constructor
  · intro db u info now
    obtain ⟨e, he⟩ := parameter_check_always_fails info
    refine ⟨e, ?_⟩
    unfold add_image
    rw [he]
  · rfl

/-- C5: `find_image_parent` on a stored image with empty process history
raises `IndexError` (line 270 takes `process_history[-1]`) — a crash, not a
distinguishable not-found outcome. -/
theorem find_image_parent_empty_history_crashes (db : List Image)
    (iid : String) (img : Image)
    (hfind : find_image db iid = some img)
    (hemp : img.process_history = []) :
    find_image_parent db iid = Except.error PyErr.indexError := by
  unfold find_image_parent
  rw [hfind]
  simp [hemp]

/-- Witness for C5: the root image `p1` has empty history. -/
theorem find_image_parent_empty_history_crashes_witness :
    find_image_parent [P0] "p1" = Except.error PyErr.indexError :=
  find_image_parent_empty_history_crashes [P0] "p1" P0 rfl rfl

/-- C6: `update_description` never changes any stored record — line 212
assigns the undeclared attribute `heart_rates` instead of `description` — yet
it still returns `true` when the id matches a stored image; concretely,
updating `p1` leaves its description "root image" intact while reporting
success. -/
theorem update_description_never_writes_description :
    (∀ (db : List Image) (iid d : String), (update_description db iid d).1 = db) ∧
    update_description [P0] "p1" "new text" = ([P0], true) ∧
    P0.description = "root image" := by
  refine ⟨?_, rfl, rfl⟩
  intro db iid d
  induction db with
  | nil => rfl
  | cons img rest ih =>
      by_cases h : img.image_id = iid
      · simp [update_description, h, heart_rates_assign, ih]
      · simp [update_description, h, ih]

/-- C7: `valid_process` consults `dir(object)`, not the Processor's
capability listing: ordinary capability names such as "sharpen" or
"histogram_equalization" are rejected, while the object-protocol name
"__init__" — no image-transformation capability — is accepted
("__doc__" alone resolves to a non-callable). -/
theorem valid_process_only_object_dunders :
    valid_process "sharpen" = false ∧
    valid_process "histogram_equalization" = false ∧
    valid_process "__init__" = true ∧
    valid_process "__doc__" = false :=
  ⟨rfl, rfl, rfl, rfl⟩

/-- C8 counterexample: the processing_time check accepts the negative
integer -5, contradicting the claim that exactly the non-negative integers
pass. -/
theorem processing_time_check_accepts_negative :
    check_processing_time_stage (some (PyVal.int (-5))) = Except.ok () := rfl

/-- C8 (amended): the processing_time check accepts a present field exactly
when the value is an integer — of any sign; no non-negativity test exists. -/
theorem processing_time_check_is_int_check (v : PyVal) :
    check_processing_time_stage (some v) = Except.ok () ↔
      ∃ n : Int, v = PyVal.int n := by
  cases v <;> simp [check_processing_time_stage, py_is_int]

/-- C9: `find_image_child` computes exactly `find_image` on every store and
every id: the two scans are extensionally equal. -/
theorem find_image_child_eq_find_image (db : List Image) (iid : String) :
    find_image_child db iid = find_image db iid := by
  induction db with
  | nil => rfl
  | cons a rest ih =>
      by_cases h : a.image_id = iid <;> simp [find_image_child, find_image, h, ih]

/-- C10: linking a new image under parent `P` persists the parent changed in
its `child_ids` alone — the stored parent equals the old record with the new
id appended to `child_ids`, every other field (history, description, ...)
unchanged; the in-memory history append of line 62 is never saved. -/
theorem add_image_parent_frame_only_child_ids (db : DBState) (u pid : String)
    (req : AddRequest) (now : Nat) (P : Image)
    (hp : req.parent_id = some pid)
    (hfind : find_image db.images pid = some P)
    (hne : req.image_id ≠ pid) :
    ∃ db2, add_image_validated db u req now = Except.ok db2 ∧
      find_image db2.images pid =
        some { P with child_ids := P.child_ids ++ [req.image_id] } := by
  obtain ⟨users2, hrun⟩ := add_image_validated_parent_shape db u pid req now P hp hfind
  have hPid : P.image_id = pid := find_image_some_id _ _ _ hfind
  refine ⟨_, hrun, ?_⟩
  have h1 : find_image
      (save_image
        (save_image db.images { P with child_ids := P.child_ids ++ [req.image_id] })
        (new_image req u now (P.process_history ++ [pid]))) pid =
      find_image
        (save_image db.images { P with child_ids := P.child_ids ++ [req.image_id] })
        pid :=
    find_save_other _ _ _ (Ne.symm hne)
  rw [h1, ← hPid]
  exact find_save_self db.images
    { P with child_ids := P.child_ids ++ [req.image_id] }

/-- Witness for C10 on the concrete store: parent `p1` gains exactly the
child id `c1`. -/
theorem add_image_parent_frame_only_child_ids_witness :
    ∃ db2, add_image_validated db0 "u1" req0 7 = Except.ok db2 ∧
      find_image db2.images "p1" =
        some { P0 with child_ids := P0.child_ids ++ ["c1"] } :=
  add_image_parent_frame_only_child_ids db0 "u1" "p1" req0 7 P0 rfl rfl (by decide)
